import Mathlib

/-!
# Gallery list / form widget (`resources/js/GalleryForm.jsx`)

A shallow embedding of the two React components of the file:

* `GalleryIndex` : the record list with live search, three-per-page
  pagination, delete, and the switch to the add / edit form;
* `GalleryForm`  : the edit buffer with its repeated image inputs.

JavaScript values are modelled as follows.  Numbers that are integers in the
program (`id`, `status`, `currentPage`) are `Int`.  Strings are Lean strings
read as their character lists; `toLowerCase` is the locale-independent Unicode
lowercase conversion that `String.prototype.toLowerCase` performs, with the
case data of the Unicode Character Database 14.0.  A field the code reads through
`??` or `?.` because it may be `null` is an `Option`.  React state is passed
explicitly: every handler is a function from the state of the render it was
created in to the next state.
-/

namespace GalleryForm

/-! ## Unicode case data (Unicode Character Database 14.0) -/

/-- The simple lowercase mappings of `UnicodeData.txt` as runs
`(first, last, step, target)`, sorted by `first`: the code point
`first + k * step`, up to `last`, maps to `target + k * step`. -/
def lowercaseMappings : List (Nat × Nat × Nat × Nat) :=
  [
    (0x41, 0x5A, 1, 0x61), (0xC0, 0xD6, 1, 0xE0), (0xD8, 0xDE, 1, 0xF8), (0x100, 0x12E, 2, 0x101),
    (0x132, 0x136, 2, 0x133), (0x139, 0x147, 2, 0x13A), (0x14A, 0x176, 2, 0x14B),
    (0x178, 0x178, 1, 0xFF), (0x179, 0x17D, 2, 0x17A), (0x181, 0x181, 1, 0x253),
    (0x182, 0x184, 2, 0x183), (0x186, 0x186, 1, 0x254), (0x187, 0x187, 1, 0x188),
    (0x189, 0x18A, 1, 0x256), (0x18B, 0x18B, 1, 0x18C), (0x18E, 0x18E, 1, 0x1DD),
    (0x18F, 0x18F, 1, 0x259), (0x190, 0x190, 1, 0x25B), (0x191, 0x191, 1, 0x192),
    (0x193, 0x193, 1, 0x260), (0x194, 0x194, 1, 0x263), (0x196, 0x196, 1, 0x269),
    (0x197, 0x197, 1, 0x268), (0x198, 0x198, 1, 0x199), (0x19C, 0x19C, 1, 0x26F),
    (0x19D, 0x19D, 1, 0x272), (0x19F, 0x19F, 1, 0x275), (0x1A0, 0x1A4, 2, 0x1A1),
    (0x1A6, 0x1A6, 1, 0x280), (0x1A7, 0x1A7, 1, 0x1A8), (0x1A9, 0x1A9, 1, 0x283),
    (0x1AC, 0x1AC, 1, 0x1AD), (0x1AE, 0x1AE, 1, 0x288), (0x1AF, 0x1AF, 1, 0x1B0),
    (0x1B1, 0x1B2, 1, 0x28A), (0x1B3, 0x1B5, 2, 0x1B4), (0x1B7, 0x1B7, 1, 0x292),
    (0x1B8, 0x1B8, 1, 0x1B9), (0x1BC, 0x1BC, 1, 0x1BD), (0x1C4, 0x1C4, 1, 0x1C6),
    (0x1C5, 0x1C5, 1, 0x1C6), (0x1C7, 0x1C7, 1, 0x1C9), (0x1C8, 0x1C8, 1, 0x1C9),
    (0x1CA, 0x1CA, 1, 0x1CC), (0x1CB, 0x1DB, 2, 0x1CC), (0x1DE, 0x1EE, 2, 0x1DF),
    (0x1F1, 0x1F1, 1, 0x1F3), (0x1F2, 0x1F4, 2, 0x1F3), (0x1F6, 0x1F6, 1, 0x195),
    (0x1F7, 0x1F7, 1, 0x1BF), (0x1F8, 0x21E, 2, 0x1F9), (0x220, 0x220, 1, 0x19E),
    (0x222, 0x232, 2, 0x223), (0x23A, 0x23A, 1, 0x2C65), (0x23B, 0x23B, 1, 0x23C),
    (0x23D, 0x23D, 1, 0x19A), (0x23E, 0x23E, 1, 0x2C66), (0x241, 0x241, 1, 0x242),
    (0x243, 0x243, 1, 0x180), (0x244, 0x244, 1, 0x289), (0x245, 0x245, 1, 0x28C),
    (0x246, 0x24E, 2, 0x247), (0x370, 0x372, 2, 0x371), (0x376, 0x376, 1, 0x377),
    (0x37F, 0x37F, 1, 0x3F3), (0x386, 0x386, 1, 0x3AC), (0x388, 0x38A, 1, 0x3AD),
    (0x38C, 0x38C, 1, 0x3CC), (0x38E, 0x38F, 1, 0x3CD), (0x391, 0x3A1, 1, 0x3B1),
    (0x3A3, 0x3AB, 1, 0x3C3), (0x3CF, 0x3CF, 1, 0x3D7), (0x3D8, 0x3EE, 2, 0x3D9),
    (0x3F4, 0x3F4, 1, 0x3B8), (0x3F7, 0x3F7, 1, 0x3F8), (0x3F9, 0x3F9, 1, 0x3F2),
    (0x3FA, 0x3FA, 1, 0x3FB), (0x3FD, 0x3FF, 1, 0x37B), (0x400, 0x40F, 1, 0x450),
    (0x410, 0x42F, 1, 0x430), (0x460, 0x480, 2, 0x461), (0x48A, 0x4BE, 2, 0x48B),
    (0x4C0, 0x4C0, 1, 0x4CF), (0x4C1, 0x4CD, 2, 0x4C2), (0x4D0, 0x52E, 2, 0x4D1),
    (0x531, 0x556, 1, 0x561), (0x10A0, 0x10C5, 1, 0x2D00), (0x10C7, 0x10C7, 1, 0x2D27),
    (0x10CD, 0x10CD, 1, 0x2D2D), (0x13A0, 0x13EF, 1, 0xAB70), (0x13F0, 0x13F5, 1, 0x13F8),
    (0x1C90, 0x1CBA, 1, 0x10D0), (0x1CBD, 0x1CBF, 1, 0x10FD), (0x1E00, 0x1E94, 2, 0x1E01),
    (0x1E9E, 0x1E9E, 1, 0xDF), (0x1EA0, 0x1EFE, 2, 0x1EA1), (0x1F08, 0x1F0F, 1, 0x1F00),
    (0x1F18, 0x1F1D, 1, 0x1F10), (0x1F28, 0x1F2F, 1, 0x1F20), (0x1F38, 0x1F3F, 1, 0x1F30),
    (0x1F48, 0x1F4D, 1, 0x1F40), (0x1F59, 0x1F5F, 2, 0x1F51), (0x1F68, 0x1F6F, 1, 0x1F60),
    (0x1F88, 0x1F8F, 1, 0x1F80), (0x1F98, 0x1F9F, 1, 0x1F90), (0x1FA8, 0x1FAF, 1, 0x1FA0),
    (0x1FB8, 0x1FB9, 1, 0x1FB0), (0x1FBA, 0x1FBB, 1, 0x1F70), (0x1FBC, 0x1FBC, 1, 0x1FB3),
    (0x1FC8, 0x1FCB, 1, 0x1F72), (0x1FCC, 0x1FCC, 1, 0x1FC3), (0x1FD8, 0x1FD9, 1, 0x1FD0),
    (0x1FDA, 0x1FDB, 1, 0x1F76), (0x1FE8, 0x1FE9, 1, 0x1FE0), (0x1FEA, 0x1FEB, 1, 0x1F7A),
    (0x1FEC, 0x1FEC, 1, 0x1FE5), (0x1FF8, 0x1FF9, 1, 0x1F78), (0x1FFA, 0x1FFB, 1, 0x1F7C),
    (0x1FFC, 0x1FFC, 1, 0x1FF3), (0x2126, 0x2126, 1, 0x3C9), (0x212A, 0x212A, 1, 0x6B),
    (0x212B, 0x212B, 1, 0xE5), (0x2132, 0x2132, 1, 0x214E), (0x2160, 0x216F, 1, 0x2170),
    (0x2183, 0x2183, 1, 0x2184), (0x24B6, 0x24CF, 1, 0x24D0), (0x2C00, 0x2C2F, 1, 0x2C30),
    (0x2C60, 0x2C60, 1, 0x2C61), (0x2C62, 0x2C62, 1, 0x26B), (0x2C63, 0x2C63, 1, 0x1D7D),
    (0x2C64, 0x2C64, 1, 0x27D), (0x2C67, 0x2C6B, 2, 0x2C68), (0x2C6D, 0x2C6D, 1, 0x251),
    (0x2C6E, 0x2C6E, 1, 0x271), (0x2C6F, 0x2C6F, 1, 0x250), (0x2C70, 0x2C70, 1, 0x252),
    (0x2C72, 0x2C72, 1, 0x2C73), (0x2C75, 0x2C75, 1, 0x2C76), (0x2C7E, 0x2C7F, 1, 0x23F),
    (0x2C80, 0x2CE2, 2, 0x2C81), (0x2CEB, 0x2CED, 2, 0x2CEC), (0x2CF2, 0x2CF2, 1, 0x2CF3),
    (0xA640, 0xA66C, 2, 0xA641), (0xA680, 0xA69A, 2, 0xA681), (0xA722, 0xA72E, 2, 0xA723),
    (0xA732, 0xA76E, 2, 0xA733), (0xA779, 0xA77B, 2, 0xA77A), (0xA77D, 0xA77D, 1, 0x1D79),
    (0xA77E, 0xA786, 2, 0xA77F), (0xA78B, 0xA78B, 1, 0xA78C), (0xA78D, 0xA78D, 1, 0x265),
    (0xA790, 0xA792, 2, 0xA791), (0xA796, 0xA7A8, 2, 0xA797), (0xA7AA, 0xA7AA, 1, 0x266),
    (0xA7AB, 0xA7AB, 1, 0x25C), (0xA7AC, 0xA7AC, 1, 0x261), (0xA7AD, 0xA7AD, 1, 0x26C),
    (0xA7AE, 0xA7AE, 1, 0x26A), (0xA7B0, 0xA7B0, 1, 0x29E), (0xA7B1, 0xA7B1, 1, 0x287),
    (0xA7B2, 0xA7B2, 1, 0x29D), (0xA7B3, 0xA7B3, 1, 0xAB53), (0xA7B4, 0xA7C2, 2, 0xA7B5),
    (0xA7C4, 0xA7C4, 1, 0xA794), (0xA7C5, 0xA7C5, 1, 0x282), (0xA7C6, 0xA7C6, 1, 0x1D8E),
    (0xA7C7, 0xA7C9, 2, 0xA7C8), (0xA7D0, 0xA7D0, 1, 0xA7D1), (0xA7D6, 0xA7D8, 2, 0xA7D7),
    (0xA7F5, 0xA7F5, 1, 0xA7F6), (0xFF21, 0xFF3A, 1, 0xFF41), (0x10400, 0x10427, 1, 0x10428),
    (0x104B0, 0x104D3, 1, 0x104D8), (0x10570, 0x1057A, 1, 0x10597),
    (0x1057C, 0x1058A, 1, 0x105A3), (0x1058C, 0x10592, 1, 0x105B3),
    (0x10594, 0x10595, 1, 0x105BB), (0x10C80, 0x10CB2, 1, 0x10CC0),
    (0x118A0, 0x118BF, 1, 0x118C0), (0x16E40, 0x16E5F, 1, 0x16E60),
    (0x1E900, 0x1E921, 1, 0x1E922)]

/-- The code points with the property `Cased`, as inclusive ranges in
increasing order. -/
def casedRanges : List (Nat × Nat) :=
  [
    (0x41, 0x5A), (0x61, 0x7A), (0xAA, 0xAA), (0xB5, 0xB5), (0xBA, 0xBA), (0xC0, 0xD6),
    (0xD8, 0xF6), (0xF8, 0x1BA), (0x1BC, 0x1BF), (0x1C4, 0x293), (0x295, 0x2B8), (0x2C0, 0x2C1),
    (0x2E0, 0x2E4), (0x345, 0x345), (0x370, 0x373), (0x376, 0x377), (0x37A, 0x37D),
    (0x37F, 0x37F), (0x386, 0x386), (0x388, 0x38A), (0x38C, 0x38C), (0x38E, 0x3A1),
    (0x3A3, 0x3F5), (0x3F7, 0x481), (0x48A, 0x52F), (0x531, 0x556), (0x560, 0x588),
    (0x10A0, 0x10C5), (0x10C7, 0x10C7), (0x10CD, 0x10CD), (0x10D0, 0x10FA), (0x10FD, 0x10FF),
    (0x13A0, 0x13F5), (0x13F8, 0x13FD), (0x1C80, 0x1C88), (0x1C90, 0x1CBA), (0x1CBD, 0x1CBF),
    (0x1D00, 0x1DBF), (0x1E00, 0x1F15), (0x1F18, 0x1F1D), (0x1F20, 0x1F45), (0x1F48, 0x1F4D),
    (0x1F50, 0x1F57), (0x1F59, 0x1F59), (0x1F5B, 0x1F5B), (0x1F5D, 0x1F5D), (0x1F5F, 0x1F7D),
    (0x1F80, 0x1FB4), (0x1FB6, 0x1FBC), (0x1FBE, 0x1FBE), (0x1FC2, 0x1FC4), (0x1FC6, 0x1FCC),
    (0x1FD0, 0x1FD3), (0x1FD6, 0x1FDB), (0x1FE0, 0x1FEC), (0x1FF2, 0x1FF4), (0x1FF6, 0x1FFC),
    (0x2071, 0x2071), (0x207F, 0x207F), (0x2090, 0x209C), (0x2102, 0x2102), (0x2107, 0x2107),
    (0x210A, 0x2113), (0x2115, 0x2115), (0x2119, 0x211D), (0x2124, 0x2124), (0x2126, 0x2126),
    (0x2128, 0x2128), (0x212A, 0x212D), (0x212F, 0x2134), (0x2139, 0x2139), (0x213C, 0x213F),
    (0x2145, 0x2149), (0x214E, 0x214E), (0x2160, 0x217F), (0x2183, 0x2184), (0x24B6, 0x24E9),
    (0x2C00, 0x2CE4), (0x2CEB, 0x2CEE), (0x2CF2, 0x2CF3), (0x2D00, 0x2D25), (0x2D27, 0x2D27),
    (0x2D2D, 0x2D2D), (0xA640, 0xA66D), (0xA680, 0xA69D), (0xA722, 0xA787), (0xA78B, 0xA78E),
    (0xA790, 0xA7CA), (0xA7D0, 0xA7D1), (0xA7D3, 0xA7D3), (0xA7D5, 0xA7D9), (0xA7F5, 0xA7F6),
    (0xA7F8, 0xA7FA), (0xAB30, 0xAB5A), (0xAB5C, 0xAB68), (0xAB70, 0xABBF), (0xFB00, 0xFB06),
    (0xFB13, 0xFB17), (0xFF21, 0xFF3A), (0xFF41, 0xFF5A), (0x10400, 0x1044F), (0x104B0, 0x104D3),
    (0x104D8, 0x104FB), (0x10570, 0x1057A), (0x1057C, 0x1058A), (0x1058C, 0x10592),
    (0x10594, 0x10595), (0x10597, 0x105A1), (0x105A3, 0x105B1), (0x105B3, 0x105B9),
    (0x105BB, 0x105BC), (0x10780, 0x10780), (0x10783, 0x10785), (0x10787, 0x107B0),
    (0x107B2, 0x107BA), (0x10C80, 0x10CB2), (0x10CC0, 0x10CF2), (0x118A0, 0x118DF),
    (0x16E40, 0x16E7F), (0x1D400, 0x1D454), (0x1D456, 0x1D49C), (0x1D49E, 0x1D49F),
    (0x1D4A2, 0x1D4A2), (0x1D4A5, 0x1D4A6), (0x1D4A9, 0x1D4AC), (0x1D4AE, 0x1D4B9),
    (0x1D4BB, 0x1D4BB), (0x1D4BD, 0x1D4C3), (0x1D4C5, 0x1D505), (0x1D507, 0x1D50A),
    (0x1D50D, 0x1D514), (0x1D516, 0x1D51C), (0x1D51E, 0x1D539), (0x1D53B, 0x1D53E),
    (0x1D540, 0x1D544), (0x1D546, 0x1D546), (0x1D54A, 0x1D550), (0x1D552, 0x1D6A5),
    (0x1D6A8, 0x1D6C0), (0x1D6C2, 0x1D6DA), (0x1D6DC, 0x1D6FA), (0x1D6FC, 0x1D714),
    (0x1D716, 0x1D734), (0x1D736, 0x1D74E), (0x1D750, 0x1D76E), (0x1D770, 0x1D788),
    (0x1D78A, 0x1D7A8), (0x1D7AA, 0x1D7C2), (0x1D7C4, 0x1D7CB), (0x1DF00, 0x1DF09),
    (0x1DF0B, 0x1DF1E), (0x1E900, 0x1E943), (0x1F130, 0x1F149), (0x1F150, 0x1F169),
    (0x1F170, 0x1F189)]

/-- The code points with the property `Case_Ignorable`, as inclusive ranges in
increasing order. -/
def caseIgnorableRanges : List (Nat × Nat) :=
  [
    (0x27, 0x27), (0x2E, 0x2E), (0x3A, 0x3A), (0x5E, 0x5E), (0x60, 0x60), (0xA8, 0xA8),
    (0xAD, 0xAD), (0xAF, 0xAF), (0xB4, 0xB4), (0xB7, 0xB8), (0x2B0, 0x36F), (0x374, 0x375),
    (0x37A, 0x37A), (0x384, 0x385), (0x387, 0x387), (0x483, 0x489), (0x559, 0x559),
    (0x55F, 0x55F), (0x591, 0x5BD), (0x5BF, 0x5BF), (0x5C1, 0x5C2), (0x5C4, 0x5C5),
    (0x5C7, 0x5C7), (0x5F4, 0x5F4), (0x600, 0x605), (0x610, 0x61A), (0x61C, 0x61C),
    (0x640, 0x640), (0x64B, 0x65F), (0x670, 0x670), (0x6D6, 0x6DD), (0x6DF, 0x6E8),
    (0x6EA, 0x6ED), (0x70F, 0x70F), (0x711, 0x711), (0x730, 0x74A), (0x7A6, 0x7B0),
    (0x7EB, 0x7F5), (0x7FA, 0x7FA), (0x7FD, 0x7FD), (0x816, 0x82D), (0x859, 0x85B),
    (0x888, 0x888), (0x890, 0x891), (0x898, 0x89F), (0x8C9, 0x902), (0x93A, 0x93A),
    (0x93C, 0x93C), (0x941, 0x948), (0x94D, 0x94D), (0x951, 0x957), (0x962, 0x963),
    (0x971, 0x971), (0x981, 0x981), (0x9BC, 0x9BC), (0x9C1, 0x9C4), (0x9CD, 0x9CD),
    (0x9E2, 0x9E3), (0x9FE, 0x9FE), (0xA01, 0xA02), (0xA3C, 0xA3C), (0xA41, 0xA42),
    (0xA47, 0xA48), (0xA4B, 0xA4D), (0xA51, 0xA51), (0xA70, 0xA71), (0xA75, 0xA75),
    (0xA81, 0xA82), (0xABC, 0xABC), (0xAC1, 0xAC5), (0xAC7, 0xAC8), (0xACD, 0xACD),
    (0xAE2, 0xAE3), (0xAFA, 0xAFF), (0xB01, 0xB01), (0xB3C, 0xB3C), (0xB3F, 0xB3F),
    (0xB41, 0xB44), (0xB4D, 0xB4D), (0xB55, 0xB56), (0xB62, 0xB63), (0xB82, 0xB82),
    (0xBC0, 0xBC0), (0xBCD, 0xBCD), (0xC00, 0xC00), (0xC04, 0xC04), (0xC3C, 0xC3C),
    (0xC3E, 0xC40), (0xC46, 0xC48), (0xC4A, 0xC4D), (0xC55, 0xC56), (0xC62, 0xC63),
    (0xC81, 0xC81), (0xCBC, 0xCBC), (0xCBF, 0xCBF), (0xCC6, 0xCC6), (0xCCC, 0xCCD),
    (0xCE2, 0xCE3), (0xD00, 0xD01), (0xD3B, 0xD3C), (0xD41, 0xD44), (0xD4D, 0xD4D),
    (0xD62, 0xD63), (0xD81, 0xD81), (0xDCA, 0xDCA), (0xDD2, 0xDD4), (0xDD6, 0xDD6),
    (0xE31, 0xE31), (0xE34, 0xE3A), (0xE46, 0xE4E), (0xEB1, 0xEB1), (0xEB4, 0xEBC),
    (0xEC6, 0xEC6), (0xEC8, 0xECD), (0xF18, 0xF19), (0xF35, 0xF35), (0xF37, 0xF37),
    (0xF39, 0xF39), (0xF71, 0xF7E), (0xF80, 0xF84), (0xF86, 0xF87), (0xF8D, 0xF97),
    (0xF99, 0xFBC), (0xFC6, 0xFC6), (0x102D, 0x1030), (0x1032, 0x1037), (0x1039, 0x103A),
    (0x103D, 0x103E), (0x1058, 0x1059), (0x105E, 0x1060), (0x1071, 0x1074), (0x1082, 0x1082),
    (0x1085, 0x1086), (0x108D, 0x108D), (0x109D, 0x109D), (0x10FC, 0x10FC), (0x135D, 0x135F),
    (0x1712, 0x1714), (0x1732, 0x1733), (0x1752, 0x1753), (0x1772, 0x1773), (0x17B4, 0x17B5),
    (0x17B7, 0x17BD), (0x17C6, 0x17C6), (0x17C9, 0x17D3), (0x17D7, 0x17D7), (0x17DD, 0x17DD),
    (0x180B, 0x180F), (0x1843, 0x1843), (0x1885, 0x1886), (0x18A9, 0x18A9), (0x1920, 0x1922),
    (0x1927, 0x1928), (0x1932, 0x1932), (0x1939, 0x193B), (0x1A17, 0x1A18), (0x1A1B, 0x1A1B),
    (0x1A56, 0x1A56), (0x1A58, 0x1A5E), (0x1A60, 0x1A60), (0x1A62, 0x1A62), (0x1A65, 0x1A6C),
    (0x1A73, 0x1A7C), (0x1A7F, 0x1A7F), (0x1AA7, 0x1AA7), (0x1AB0, 0x1ACE), (0x1B00, 0x1B03),
    (0x1B34, 0x1B34), (0x1B36, 0x1B3A), (0x1B3C, 0x1B3C), (0x1B42, 0x1B42), (0x1B6B, 0x1B73),
    (0x1B80, 0x1B81), (0x1BA2, 0x1BA5), (0x1BA8, 0x1BA9), (0x1BAB, 0x1BAD), (0x1BE6, 0x1BE6),
    (0x1BE8, 0x1BE9), (0x1BED, 0x1BED), (0x1BEF, 0x1BF1), (0x1C2C, 0x1C33), (0x1C36, 0x1C37),
    (0x1C78, 0x1C7D), (0x1CD0, 0x1CD2), (0x1CD4, 0x1CE0), (0x1CE2, 0x1CE8), (0x1CED, 0x1CED),
    (0x1CF4, 0x1CF4), (0x1CF8, 0x1CF9), (0x1D2C, 0x1D6A), (0x1D78, 0x1D78), (0x1D9B, 0x1DFF),
    (0x1FBD, 0x1FBD), (0x1FBF, 0x1FC1), (0x1FCD, 0x1FCF), (0x1FDD, 0x1FDF), (0x1FED, 0x1FEF),
    (0x1FFD, 0x1FFE), (0x200B, 0x200F), (0x2018, 0x2019), (0x2024, 0x2024), (0x2027, 0x2027),
    (0x202A, 0x202E), (0x2060, 0x2064), (0x2066, 0x206F), (0x2071, 0x2071), (0x207F, 0x207F),
    (0x2090, 0x209C), (0x20D0, 0x20F0), (0x2C7C, 0x2C7D), (0x2CEF, 0x2CF1), (0x2D6F, 0x2D6F),
    (0x2D7F, 0x2D7F), (0x2DE0, 0x2DFF), (0x2E2F, 0x2E2F), (0x3005, 0x3005), (0x302A, 0x302D),
    (0x3031, 0x3035), (0x303B, 0x303B), (0x3099, 0x309E), (0x30FC, 0x30FE), (0xA015, 0xA015),
    (0xA4F8, 0xA4FD), (0xA60C, 0xA60C), (0xA66F, 0xA672), (0xA674, 0xA67D), (0xA67F, 0xA67F),
    (0xA69C, 0xA69F), (0xA6F0, 0xA6F1), (0xA700, 0xA721), (0xA770, 0xA770), (0xA788, 0xA78A),
    (0xA7F2, 0xA7F4), (0xA7F8, 0xA7F9), (0xA802, 0xA802), (0xA806, 0xA806), (0xA80B, 0xA80B),
    (0xA825, 0xA826), (0xA82C, 0xA82C), (0xA8C4, 0xA8C5), (0xA8E0, 0xA8F1), (0xA8FF, 0xA8FF),
    (0xA926, 0xA92D), (0xA947, 0xA951), (0xA980, 0xA982), (0xA9B3, 0xA9B3), (0xA9B6, 0xA9B9),
    (0xA9BC, 0xA9BD), (0xA9CF, 0xA9CF), (0xA9E5, 0xA9E6), (0xAA29, 0xAA2E), (0xAA31, 0xAA32),
    (0xAA35, 0xAA36), (0xAA43, 0xAA43), (0xAA4C, 0xAA4C), (0xAA70, 0xAA70), (0xAA7C, 0xAA7C),
    (0xAAB0, 0xAAB0), (0xAAB2, 0xAAB4), (0xAAB7, 0xAAB8), (0xAABE, 0xAABF), (0xAAC1, 0xAAC1),
    (0xAADD, 0xAADD), (0xAAEC, 0xAAED), (0xAAF3, 0xAAF4), (0xAAF6, 0xAAF6), (0xAB5B, 0xAB5F),
    (0xAB69, 0xAB6B), (0xABE5, 0xABE5), (0xABE8, 0xABE8), (0xABED, 0xABED), (0xFB1E, 0xFB1E),
    (0xFBB2, 0xFBC2), (0xFE00, 0xFE0F), (0xFE13, 0xFE13), (0xFE20, 0xFE2F), (0xFE52, 0xFE52),
    (0xFE55, 0xFE55), (0xFEFF, 0xFEFF), (0xFF07, 0xFF07), (0xFF0E, 0xFF0E), (0xFF1A, 0xFF1A),
    (0xFF3E, 0xFF3E), (0xFF40, 0xFF40), (0xFF70, 0xFF70), (0xFF9E, 0xFF9F), (0xFFE3, 0xFFE3),
    (0xFFF9, 0xFFFB), (0x101FD, 0x101FD), (0x102E0, 0x102E0), (0x10376, 0x1037A),
    (0x10780, 0x10785), (0x10787, 0x107B0), (0x107B2, 0x107BA), (0x10A01, 0x10A03),
    (0x10A05, 0x10A06), (0x10A0C, 0x10A0F), (0x10A38, 0x10A3A), (0x10A3F, 0x10A3F),
    (0x10AE5, 0x10AE6), (0x10D24, 0x10D27), (0x10EAB, 0x10EAC), (0x10F46, 0x10F50),
    (0x10F82, 0x10F85), (0x11001, 0x11001), (0x11038, 0x11046), (0x11070, 0x11070),
    (0x11073, 0x11074), (0x1107F, 0x11081), (0x110B3, 0x110B6), (0x110B9, 0x110BA),
    (0x110BD, 0x110BD), (0x110C2, 0x110C2), (0x110CD, 0x110CD), (0x11100, 0x11102),
    (0x11127, 0x1112B), (0x1112D, 0x11134), (0x11173, 0x11173), (0x11180, 0x11181),
    (0x111B6, 0x111BE), (0x111C9, 0x111CC), (0x111CF, 0x111CF), (0x1122F, 0x11231),
    (0x11234, 0x11234), (0x11236, 0x11237), (0x1123E, 0x1123E), (0x112DF, 0x112DF),
    (0x112E3, 0x112EA), (0x11300, 0x11301), (0x1133B, 0x1133C), (0x11340, 0x11340),
    (0x11366, 0x1136C), (0x11370, 0x11374), (0x11438, 0x1143F), (0x11442, 0x11444),
    (0x11446, 0x11446), (0x1145E, 0x1145E), (0x114B3, 0x114B8), (0x114BA, 0x114BA),
    (0x114BF, 0x114C0), (0x114C2, 0x114C3), (0x115B2, 0x115B5), (0x115BC, 0x115BD),
    (0x115BF, 0x115C0), (0x115DC, 0x115DD), (0x11633, 0x1163A), (0x1163D, 0x1163D),
    (0x1163F, 0x11640), (0x116AB, 0x116AB), (0x116AD, 0x116AD), (0x116B0, 0x116B5),
    (0x116B7, 0x116B7), (0x1171D, 0x1171F), (0x11722, 0x11725), (0x11727, 0x1172B),
    (0x1182F, 0x11837), (0x11839, 0x1183A), (0x1193B, 0x1193C), (0x1193E, 0x1193E),
    (0x11943, 0x11943), (0x119D4, 0x119D7), (0x119DA, 0x119DB), (0x119E0, 0x119E0),
    (0x11A01, 0x11A0A), (0x11A33, 0x11A38), (0x11A3B, 0x11A3E), (0x11A47, 0x11A47),
    (0x11A51, 0x11A56), (0x11A59, 0x11A5B), (0x11A8A, 0x11A96), (0x11A98, 0x11A99),
    (0x11C30, 0x11C36), (0x11C38, 0x11C3D), (0x11C3F, 0x11C3F), (0x11C92, 0x11CA7),
    (0x11CAA, 0x11CB0), (0x11CB2, 0x11CB3), (0x11CB5, 0x11CB6), (0x11D31, 0x11D36),
    (0x11D3A, 0x11D3A), (0x11D3C, 0x11D3D), (0x11D3F, 0x11D45), (0x11D47, 0x11D47),
    (0x11D90, 0x11D91), (0x11D95, 0x11D95), (0x11D97, 0x11D97), (0x11EF3, 0x11EF4),
    (0x13430, 0x13438), (0x16AF0, 0x16AF4), (0x16B30, 0x16B36), (0x16B40, 0x16B43),
    (0x16F4F, 0x16F4F), (0x16F8F, 0x16F9F), (0x16FE0, 0x16FE1), (0x16FE3, 0x16FE4),
    (0x1AFF0, 0x1AFF3), (0x1AFF5, 0x1AFFB), (0x1AFFD, 0x1AFFE), (0x1BC9D, 0x1BC9E),
    (0x1BCA0, 0x1BCA3), (0x1CF00, 0x1CF2D), (0x1CF30, 0x1CF46), (0x1D167, 0x1D169),
    (0x1D173, 0x1D182), (0x1D185, 0x1D18B), (0x1D1AA, 0x1D1AD), (0x1D242, 0x1D244),
    (0x1DA00, 0x1DA36), (0x1DA3B, 0x1DA6C), (0x1DA75, 0x1DA75), (0x1DA84, 0x1DA84),
    (0x1DA9B, 0x1DA9F), (0x1DAA1, 0x1DAAF), (0x1E000, 0x1E006), (0x1E008, 0x1E018),
    (0x1E01B, 0x1E021), (0x1E023, 0x1E024), (0x1E026, 0x1E02A), (0x1E130, 0x1E13D),
    (0x1E2AE, 0x1E2AE), (0x1E2EC, 0x1E2EF), (0x1E8D0, 0x1E8D6), (0x1E944, 0x1E94B),
    (0x1F3FB, 0x1F3FF), (0xE0001, 0xE0001), (0xE0020, 0xE007F), (0xE0100, 0xE01EF)]

/-! ## JavaScript primitives used by the components -/

/-- Membership in a list of inclusive ranges given in increasing order. -/
def inRanges : List (Nat × Nat) → Nat → Bool
  | [], _ => false
  | (first, last) :: rest, n =>
    if n < first then false
    else if n ≤ last then true
    else inRanges rest n

/-- The simple lowercase mapping of a code point, read off a table of runs;
a code point in no run maps to itself. -/
def simpleLowercase : List (Nat × Nat × Nat × Nat) → Nat → Nat
  | [], n => n
  | (first, last, step, target) :: rest, n =>
    if n < first then n
    else if n ≤ last ∧ (n - first) % step = 0 then target + (n - first)
    else simpleLowercase rest n

/-- The property `Cased`. -/
def isCased (c : Char) : Bool := inRanges casedRanges c.toNat

/-- The property `Case_Ignorable`. -/
def isCaseIgnorable (c : Char) : Bool := inRanges caseIgnorableRanges c.toNat

/-- The lowercase mapping of one character whatever its neighbours: the simple
mapping, except for U+0130 which `SpecialCasing.txt` maps to U+0069 U+0307. -/
def lowerChar (c : Char) : List Char :=
  if c.toNat = 0x130 then [Char.ofNat 0x69, Char.ofNat 0x307]
  else [Char.ofNat (simpleLowercase lowercaseMappings c.toNat)]

/-- Going through the characters in the order given, skip the case-ignorable
ones and tell whether the first other character is cased. -/
def nextIsCased : List Char → Bool
  | [] => false
  | c :: rest => if isCaseIgnorable c then nextIsCased rest else isCased c

/-- The lowercase conversion of the characters `rest`, `before` being the
characters already passed, nearest first.  Capital sigma (U+03A3) becomes
final sigma (U+03C2) under the condition `Final_Sigma`, that is after a cased
letter and not before one, case-ignorable characters in between being skipped,
and small sigma (U+03C3) otherwise. -/
def toLowerAux : List Char → List Char → List Char
  | _, [] => []
  | before, c :: rest =>
    (if c.toNat = 0x3A3 then
      (if nextIsCased before && !nextIsCased rest then [Char.ofNat 0x3C2]
       else [Char.ofNat 0x3C3])
     else lowerChar c) ++ toLowerAux (c :: before) rest

/-- `s.toLowerCase()`. -/
def toLowerCase (s : String) : String := ⟨toLowerAux [] s.data⟩

/-- `s.includes(t)`: `t` occurs in `s` as a contiguous run of characters. -/
def includes (s t : String) : Bool := decide (t.data <:+: s.data)

/-- Truthiness of a JavaScript number, as tested by `x ? a : b`. -/
def truthy (n : Int) : Bool := decide (n ≠ 0)

/-- `xs.slice(start, stop)`: negative arguments count from the end, both are
clamped to the array, and the result is empty when `stop` is not after
`start`. -/
def slice {α : Type} (xs : List α) (start stop : Int) : List α :=
  let len : Int := xs.length
  let k : Int := if start < 0 then max (len + start) 0 else min start len
  let final : Int := if stop < 0 then max (len + stop) 0 else min stop len
  (xs.drop k.toNat).take (final - k).toNat

/-- `Math.ceil(a / b)` for a non-negative integer `a` and a positive integer
`b`, computed on integers; `mathCeilDiv_eq_ceil` shows it is the ceiling of
the exact quotient. -/
def mathCeilDiv (a b : Nat) : Nat := (a + b - 1) / b

/-! ## Data model -/

/-- A gallery row as delivered in `window.galleriesData`.  `description` is
read as `gallery.description ?? ''` and `images` as `gallery.images?.map`, so
both may be `null`. -/
structure Record where
  id : Int
  title : String
  description : Option String
  images : Option (List String)
  status : Int
deriving DecidableEq, Repr

/-! ## `GalleryIndex`: live search -/

/-- The text `gallery.status ? 'active' : 'inactive'` searched by the filter. -/
def statusText (status : Int) : String :=
  if truthy status then "active" else "inactive"

/-- The callback of `list.filter(...)` in `filteredList`. -/
def matchesSearch (search : String) (gallery : Record) : Bool :=
  includes (toString gallery.id) search ||
  includes (toLowerCase gallery.title) (toLowerCase search) ||
  includes (toLowerCase (gallery.description.getD "")) (toLowerCase search) ||
  includes (statusText gallery.status) (toLowerCase search)

/-- The value of `const filteredList = list.filter(...)`. -/
def filteredList (list : List Record) (search : String) : List Record :=
  list.filter (matchesSearch search)

/-- Case-insensitive containment as the specification words it: some
contiguous run of characters of the text equals the term once the case of
every character is disregarded, each character of both being replaced by its
own lowercase mapping. -/
def containsIgnoreCase (text term : String) : Bool :=
  text.data.tails.any (fun suffix =>
    suffix.inits.any (fun run =>
      decide (run.flatMap lowerChar = term.data.flatMap lowerChar)))

/-! ## `GalleryIndex`: state, pagination, handlers -/

/-- The five `useState` cells of `GalleryIndex`. -/
structure IndexState where
  list : List Record
  search : String
  currentPage : Int
  editingGallery : Option Record
  addingGallery : Bool
deriving DecidableEq, Repr

/-- The initial values of the `useState` calls, `galleries` being the prop. -/
def initialState (galleries : List Record) : IndexState :=
  { list := galleries, search := "", currentPage := 1,
    editingGallery := none, addingGallery := false }

/-- `const perPage = 3`. -/
def perPage : Nat := 3

/-- `Math.ceil(filteredList.length / perPage)`. -/
def totalPages (filtered : List Record) : Nat :=
  mathCeilDiv filtered.length perPage

/-- `filteredList.slice((currentPage - 1) * perPage, currentPage * perPage)`. -/
def paginatedData (filtered : List Record) (currentPage : Int) : List Record :=
  slice filtered ((currentPage - 1) * perPage) (currentPage * perPage)

/-- The filtered list of a render. -/
def IndexState.filtered (s : IndexState) : List Record :=
  filteredList s.list s.search

/-- The `totalPages` of a render. -/
def IndexState.totalPages (s : IndexState) : Nat :=
  GalleryForm.totalPages s.filtered

/-- The rows shown by a render. -/
def IndexState.paginatedData (s : IndexState) : List Record :=
  GalleryForm.paginatedData s.filtered s.currentPage

/-- The attribute `disabled={currentPage === 1}` of the Previous button. -/
def previousDisabled (s : IndexState) : Bool :=
  decide (s.currentPage = 1)

/-- The attribute `disabled={currentPage === totalPages}` of the Next button. -/
def nextDisabled (s : IndexState) : Bool :=
  decide (s.currentPage = (s.totalPages : Int))

/-- The `onChange` handler of the search input. -/
def onSearchChange (s : IndexState) (value : String) : IndexState :=
  { s with search := value, currentPage := 1 }

/-- The `onClick` handler of the Previous button. -/
def onPreviousClick (s : IndexState) : IndexState :=
  { s with currentPage := s.currentPage - 1 }

/-- The `onClick` handler of the Next button. -/
def onNextClick (s : IndexState) : IndexState :=
  { s with currentPage := s.currentPage + 1 }

/-- A request handed to `fetch`. -/
structure Request where
  method : String
  url : String
deriving DecidableEq, Repr

/-- How a request handed to `fetch` may settle. -/
inductive FetchOutcome where
  | fulfilled (httpStatus : Nat)
  | rejected
deriving DecidableEq, Repr

/-- `handleDelete(id)`; `confirmed` is the answer of the `confirm` dialog.
Returns the next state and the requests issued. -/
def handleDelete (s : IndexState) (id : Int) (confirmed : Bool) :
    IndexState × List Request :=
  if !confirmed then (s, [])
  else
    ({ s with list := s.list.filter (fun g => decide (g.id ≠ id)) },
     [{ method := "POST", url := "/gallery/" ++ toString id ++ "/delete" }])

/-- The request of `handleDelete` settles.  The promise returned by `fetch` is
dropped without a `then` or `catch`, so no state setter runs. -/
def fetchSettled (s : IndexState) (_outcome : FetchOutcome) : IndexState := s

/-- The `onClick` handler of the Add button. -/
def onAddClick (s : IndexState) : IndexState :=
  { s with addingGallery := true }

/-- The `onClick` handler of the Edit button of a row. -/
def onEditClick (s : IndexState) (gallery : Record) : IndexState :=
  { s with editingGallery := some gallery }

/-- The `onBack` callback passed to the form in add mode. -/
def onBackFromAdd (s : IndexState) : IndexState :=
  { s with addingGallery := false }

/-- The `onBack` callback passed to the form in edit mode. -/
def onBackFromEdit (s : IndexState) : IndexState :=
  { s with editingGallery := none }

/-- What a render of `GalleryIndex` returns. -/
inductive View where
  | listing
  | adding
  | editing (gallery : Record)
deriving DecidableEq, Repr

/-- The view switch: `if (addingGallery) ...; if (editingGallery) ...;` and
the list otherwise. -/
def view (s : IndexState) : View :=
  if s.addingGallery then View.adding
  else
    match s.editingGallery with
    | some gallery => View.editing gallery
    | none => View.listing

/-- The user actions on `GalleryIndex`. -/
inductive Action where
  | changeSearch (value : String)
  | clickPrevious
  | clickNext
  | clickDelete (id : Int) (confirmed : Bool)
  | clickAdd
  | clickEdit (gallery : Record)
  | clickBack
deriving DecidableEq, Repr

/-- One user action, `none` when the rendered view does not offer it: the list
controls exist only in the list view, a disabled button does not fire, Edit
and Delete exist only on the rows of the current page, and Back exists only
on the form. -/
def step (s : IndexState) (a : Action) : Option IndexState :=
  match view s with
  | View.listing =>
    match a with
    | Action.changeSearch value => some (onSearchChange s value)
    | Action.clickPrevious =>
      if previousDisabled s then none else some (onPreviousClick s)
    | Action.clickNext =>
      if nextDisabled s then none else some (onNextClick s)
    | Action.clickDelete id confirmed =>
      if s.paginatedData.any (fun g => decide (g.id = id)) then
        some (handleDelete s id confirmed).1
      else none
    | Action.clickAdd => some (onAddClick s)
    | Action.clickEdit gallery =>
      if gallery ∈ s.paginatedData then some (onEditClick s gallery) else none
    | Action.clickBack => none
  | View.adding =>
    match a with
    | Action.clickBack => some (onBackFromAdd s)
    | _ => none
  | View.editing _ =>
    match a with
    | Action.clickBack => some (onBackFromEdit s)
    | _ => none

/-- The states `GalleryIndex` can be in after mounting with `galleries`. -/
inductive Reachable (galleries : List Record) : IndexState → Prop where
  | init : Reachable galleries (initialState galleries)
  | next {s s1 : IndexState} (a : Action) :
      Reachable galleries s → step s a = some s1 → Reachable galleries s1

/-- The page invariant of the list view:
`1 ≤ currentPage ≤ max(1, ceil(filteredCount / 3))`. -/
def pageInRange (s : IndexState) : Prop :=
  1 ≤ s.currentPage ∧ s.currentPage ≤ max 1 (s.totalPages : Int)

instance (s : IndexState) : Decidable (pageInRange s) := by
  unfold pageInRange; infer_instance

/-- A record with the given id, for the scenarios. -/
def sampleRecord (id : Int) : Record :=
  { id := id, title := "Gallery", description := none, images := none, status := 1 }

/-! ## `GalleryForm`: the edit buffer -/

/-- Stand-in for the browser `File` object of a file input. -/
structure File where
  name : String
deriving DecidableEq, Repr

/-- An entry of the `images` state: `{ type: 'existing', value: img }` or
`{ type: 'new', value: file }`, the latter with `null` before a file is chosen. -/
inductive ImageSlot where
  | existing (value : String)
  | new (value : Option File)
deriving DecidableEq, Repr

/-- The `useState` cells of `GalleryForm`. -/
structure FormState where
  title : String
  description : String
  status : Int
  images : List ImageSlot
deriving DecidableEq, Repr

/-- The initial values of the `useState` calls of `GalleryForm`; `gallery` is
`none` in add mode.  An array is truthy even when empty, so the `||` fallback
is taken exactly when `gallery?.images?.map(...)` is `undefined`. -/
def formInit (gallery : Option Record) : FormState :=
  { title := (gallery.map (fun g => g.title)).getD "",
    description := (gallery.bind (fun g => g.description)).getD "",
    status := (gallery.map (fun g => g.status)).getD 1,
    images :=
      match gallery.bind (fun g => g.images) with
      | some imgs => imgs.map ImageSlot.existing
      | none => [ImageSlot.new none] }

/-- `addImage`: `[...images, { type: 'new', value: null }]`. -/
def addImage (images : List ImageSlot) : List ImageSlot :=
  images ++ [ImageSlot.new none]

/-- `removeImage(i)`: `images.filter((_, index) => index !== i)`. -/
def removeImage (images : List ImageSlot) (i : Nat) : List ImageSlot :=
  (images.enum.filter (fun p => decide (p.1 ≠ i))).map Prod.snd

/-- `handleNewFileChange(e, index)` with `files = e.target.files`; `files[0]`
is `undefined` for an empty selection.  The handler is attached to the input
of slot `index` of the rendered list, so `index` is below the length. -/
def handleNewFileChange (images : List ImageSlot) (files : List File)
    (index : Nat) : List ImageSlot :=
  images.set index (ImageSlot.new files.head?)

/-- The values of the hidden `existing_images[]` inputs, one for each slot of
type `'existing'`, in slot order. -/
def existingImagesField (images : List ImageSlot) : List String :=
  images.filterMap (fun slot =>
    match slot with
    | ImageSlot.existing value => some value
    | ImageSlot.new _ => none)

/-! ## Lemmas on the JavaScript primitives -/

theorem mathCeilDiv_eq_ceil (a b : Nat) (hb : 0 < b) :
    mathCeilDiv a b = ⌈(a : ℚ) / (b : ℚ)⌉₊ := by
  have hbq : (0 : ℚ) < (b : ℚ) := by exact_mod_cast hb
  apply eq_of_forall_ge_iff
  intro c
  rw [Nat.ceil_le, div_le_iff₀ hbq]
  unfold mathCeilDiv
  rw [Nat.div_le_iff_le_mul_add_pred hb]
  constructor
  · intro h
    have : a ≤ c * b := by
      have := Nat.mul_comm b c
      omega
    exact_mod_cast this
  · intro h
    have h1 : a ≤ c * b := by exact_mod_cast h
    have := Nat.mul_comm b c
    omega

/-! ## Live search -/

/-- C1, evaluated on the code.  The filtered list is always a sub-list of the
record list.  For the one record with title "ΟΔΟΣΑ" and the search term
"ΟΔΟΣ" the title contains the term letter for letter, hence also
case-insensitively, yet the filtered list is empty: `toLowerCase` turns the
last letter of the term into a final sigma and the same letter inside the
title into a small sigma, and no other field matches. -/
theorem filteredList_misses_final_sigma :
    (∀ (R : List Record) (t : String), (filteredList R t).Sublist R) ∧
    "ΟΔΟΣ".data <:+: "ΟΔΟΣΑ".data ∧
    containsIgnoreCase "ΟΔΟΣΑ" "ΟΔΟΣ" = true ∧
    toLowerCase "ΟΔΟΣ" = "οδος" ∧
    toLowerCase "ΟΔΟΣΑ" = "οδοσα" ∧
    matchesSearch "ΟΔΟΣ"
      { id := 1, title := "ΟΔΟΣΑ", description := none, images := none, status := 1 }
      = false ∧
    filteredList
      [{ id := 1, title := "ΟΔΟΣΑ", description := none, images := none, status := 1 }]
      "ΟΔΟΣ" = [] := by
  refine ⟨fun R t => List.filter_sublist _, ?_, ?_, ?_, ?_, ?_, ?_⟩ <;> decide

/-! ## Pagination -/

/-- With both bounds non-negative, `slice` is a `drop` followed by a `take`. -/
theorem slice_of_nat {α : Type} (xs : List α) (a b : Nat) :
    slice xs (a : Int) (b : Int) = (xs.drop a).take (b - a) := by
  unfold slice
  have ha : ¬ ((a : Int) < 0) := by omega
  have hb : ¬ ((b : Int) < 0) := by omega
  simp only [if_neg ha, if_neg hb]
  by_cases hlen : xs.length ≤ a
  · have h1 : (min (a : Int) (xs.length : Int)).toNat = xs.length := by omega
    rw [h1, List.drop_eq_nil_of_le (Nat.le_refl _), List.drop_eq_nil_of_le hlen]
    simp
  · have h1 : (min (a : Int) (xs.length : Int)).toNat = a := by omega
    rw [h1, List.take_eq_take, List.length_drop]
    omega

theorem paginatedData_succ (F : List Record) (i : Nat) :
    paginatedData F ((i : Int) + 1) = (F.drop (3 * i)).take 3 := by
  unfold paginatedData perPage
  have h1 : ((i : Int) + 1 - 1) * ((3 : Nat) : Int) = ((3 * i : Nat) : Int) := by
    push_cast; ring
  have h2 : ((i : Int) + 1) * ((3 : Nat) : Int) = ((3 * i + 3 : Nat) : Int) := by
    push_cast; ring
  rw [h1, h2, slice_of_nat]
  congr 1
  omega

theorem paginatedData_length_le (F : List Record) (p : Int) :
    (paginatedData F p).length ≤ perPage := by
  unfold paginatedData slice perPage
  simp only [List.length_take, List.length_drop, Nat.cast_ofNat]
  split_ifs <;> omega

theorem flatMap_pages (F : List Record) (n : Nat) :
    (List.range n).flatMap (fun i => paginatedData F ((i : Int) + 1)) = F.take (3 * n) := by
  induction n with
  | zero => simp
  | succ n ih =>
    rw [List.range_succ, List.flatMap_append, ih, List.flatMap_singleton,
      paginatedData_succ, Nat.mul_succ, List.take_add]

theorem length_le_totalPages (F : List Record) : F.length ≤ 3 * totalPages F := by
  unfold totalPages mathCeilDiv perPage
  omega

/-- C2: with three rows a page and `totalPages = ceil(|F| / 3)`, every page
slice has at most three items, and the slices of pages 1, 2, ..., totalPages
concatenated in order give the filtered list back.  Scenario: for four records
with ids 1 to 4 and the empty search term, page 1 shows ids 1, 2, 3, page 2
shows id 4 and there are two pages. -/
theorem paginate_partition :
    (∀ F : List Record,
      totalPages F = ⌈(F.length : ℚ) / 3⌉₊ ∧
      (∀ p : Int, (paginatedData F p).length ≤ 3) ∧
      (List.range (totalPages F)).flatMap (fun i => paginatedData F ((i : Int) + 1)) = F) ∧
    (∀ r1 r2 r3 r4 : Record,
      (paginatedData
          (filteredList [{ r1 with id := 1 }, { r2 with id := 2 }, { r3 with id := 3 },
            { r4 with id := 4 }] "") 1).map (fun g => g.id) = [1, 2, 3] ∧
      (paginatedData
          (filteredList [{ r1 with id := 1 }, { r2 with id := 2 }, { r3 with id := 3 },
            { r4 with id := 4 }] "") 2).map (fun g => g.id) = [4] ∧
      totalPages
          (filteredList [{ r1 with id := 1 }, { r2 with id := 2 }, { r3 with id := 3 },
            { r4 with id := 4 }] "") = 2) := by
  constructor
  · intro F
    refine ⟨?_, paginatedData_length_le F, ?_⟩
    · have := mathCeilDiv_eq_ceil F.length perPage (by decide)
      simpa [totalPages, perPage] using this
    · rw [flatMap_pages, List.take_of_length_le (length_le_totalPages F)]
  · intro r1 r2 r3 r4
    have hall : ∀ R : List Record, filteredList R "" = R := by
      intro R
      unfold filteredList
      apply List.filter_eq_self.2
      intro r _
      simp [matchesSearch, includes]
    rw [hall]
    refine ⟨?_, ?_, ?_⟩
    · have := paginatedData_succ
        [{ r1 with id := 1 }, { r2 with id := 2 }, { r3 with id := 3 }, { r4 with id := 4 }] 0
      simp only [Nat.cast_zero, zero_add] at this
      rw [this]; rfl
    · have := paginatedData_succ
        [{ r1 with id := 1 }, { r2 with id := 2 }, { r3 with id := 3 }, { r4 with id := 4 }] 1
      have e : ((1 : Nat) : Int) + 1 = 2 := by norm_num
      rw [e] at this
      rw [this]; rfl
    · simp [totalPages, mathCeilDiv, perPage]

/-! ## The page invariant and the navigation buttons -/

/-- C3, evaluated on the code.  From four records (ids 1 to 4): Next, then a
confirmed delete of id 4 on page 2, reaches a state with `currentPage = 2`
while three records match and `max(1, ceil(3 / 3)) = 1`; the page shown is
empty and Next is still enabled.  From an empty record list, Next is enabled
and reaches `currentPage = 2` with no page at all. -/
theorem reachable_page_out_of_range :
    (Reachable [sampleRecord 1, sampleRecord 2, sampleRecord 3, sampleRecord 4]
        { list := [sampleRecord 1, sampleRecord 2, sampleRecord 3], search := "",
          currentPage := 2, editingGallery := none, addingGallery := false } ∧
      ¬ pageInRange
        { list := [sampleRecord 1, sampleRecord 2, sampleRecord 3], search := "",
          currentPage := 2, editingGallery := none, addingGallery := false } ∧
      (IndexState.filtered
        { list := [sampleRecord 1, sampleRecord 2, sampleRecord 3], search := "",
          currentPage := 2, editingGallery := none, addingGallery := false }).length = 3 ∧
      IndexState.paginatedData
        { list := [sampleRecord 1, sampleRecord 2, sampleRecord 3], search := "",
          currentPage := 2, editingGallery := none, addingGallery := false } = [] ∧
      nextDisabled
        { list := [sampleRecord 1, sampleRecord 2, sampleRecord 3], search := "",
          currentPage := 2, editingGallery := none, addingGallery := false } = false) ∧
    (Reachable []
        { list := [], search := "", currentPage := 2, editingGallery := none,
          addingGallery := false } ∧
      ¬ pageInRange
        { list := [], search := "", currentPage := 2, editingGallery := none,
          addingGallery := false }) := by
  refine ⟨⟨?_, by decide, by decide, by decide, by decide⟩, ?_, by decide⟩
  · have h1 : Reachable [sampleRecord 1, sampleRecord 2, sampleRecord 3, sampleRecord 4]
        { list := [sampleRecord 1, sampleRecord 2, sampleRecord 3, sampleRecord 4],
          search := "", currentPage := 2, editingGallery := none, addingGallery := false } :=
      Reachable.next Action.clickNext Reachable.init (by decide)
    exact Reachable.next (Action.clickDelete 4 true) h1 (by decide)
  · exact Reachable.next Action.clickNext Reachable.init (by decide)

/-- C4, evaluated on the code.  With one record and a search term that matches
nothing there are zero pages, yet the Next button is not disabled and a click
on it moves to page 2. -/
theorem nextButton_enabled_without_pages :
    (onSearchChange (initialState [sampleRecord 1]) "zzz").totalPages = 0 ∧
    nextDisabled (onSearchChange (initialState [sampleRecord 1]) "zzz") = false ∧
    (step (onSearchChange (initialState [sampleRecord 1]) "zzz") Action.clickNext).map
      (fun s => s.currentPage) = some 2 := by
  decide

/-! ## Search and delete handlers -/

/-- C5: the change handler of the search input stores the new term, sets the
current page to 1, and leaves the record list and the add / edit flags as they
were. -/
theorem onSearchChange_spec (s : IndexState) (value : String) :
    (onSearchChange s value).search = value ∧
    (onSearchChange s value).currentPage = 1 ∧
    (onSearchChange s value).list = s.list ∧
    (onSearchChange s value).editingGallery = s.editingGallery ∧
    (onSearchChange s value).addingGallery = s.addingGallery :=
  ⟨rfl, rfl, rfl, rfl, rfl⟩

/-- C6: a confirmed `handleDelete(k)` sets the list to the old list without
the records of id `k`, the others kept in order and in number, issues one
request, and the list is the same however that request settles; a declined
one changes nothing and issues no request.  Scenario: deleting id 3 from ids
1 to 4 leaves ids 1, 2, 4. -/
theorem handleDelete_spec :
    (∀ (s : IndexState) (k : Int) (outcome : FetchOutcome),
      (handleDelete s k true).1.list = s.list.filter (fun g => decide (g.id ≠ k)) ∧
      (handleDelete s k true).1.list.Sublist s.list ∧
      (∀ g : Record, g ∈ (handleDelete s k true).1.list ↔ g ∈ s.list ∧ g.id ≠ k) ∧
      (∀ g : Record, g.id = k ∨
        (handleDelete s k true).1.list.count g = s.list.count g) ∧
      (fetchSettled (handleDelete s k true).1 outcome).list =
        (handleDelete s k true).1.list ∧
      (handleDelete s k true).2.length = 1 ∧
      handleDelete s k false = (s, [])) ∧
    (∀ r1 r2 r3 r4 : Record, ∀ outcome : FetchOutcome,
      (fetchSettled
        (handleDelete
          (initialState [{ r1 with id := 1 }, { r2 with id := 2 }, { r3 with id := 3 },
            { r4 with id := 4 }]) 3 true).1 outcome).list.map (fun g => g.id)
        = [1, 2, 4]) := by
  constructor
  · intro s k outcome
    refine ⟨rfl, List.filter_sublist _, ?_, ?_, rfl, rfl, rfl⟩
    · intro g
      simp [handleDelete, List.mem_filter]
    · intro g
      by_cases h : g.id = k
      · exact Or.inl h
      · right
        simp only [handleDelete, Bool.not_true, Bool.false_eq_true, if_false]
        rw [List.count_filter]
        simpa using h
  · intro r1 r2 r3 r4 outcome
    simp [fetchSettled, handleDelete, initialState, List.filter]

/-! ## The view switch -/

theorem view_listing_iff (s : IndexState) :
    view s = View.listing ↔ s.addingGallery = false ∧ s.editingGallery = none := by
  rcases s with ⟨l, se, p, _ | g, _ | _⟩ <;> simp [view]

/-- Whatever the action, a step leaves at most one of the two mode flags set,
provided at most one was set before. -/
theorem step_flags (s s1 : IndexState) (a : Action) (hs : step s a = some s1)
    (h : ¬ (s.addingGallery = true ∧ s.editingGallery.isSome = true)) :
    ¬ (s1.addingGallery = true ∧ s1.editingGallery.isSome = true) := by
  rcases s with ⟨l, se, p, _ | g, _ | _⟩ <;> cases a <;>
    simp [step, view, onSearchChange, onPreviousClick, onNextClick, handleDelete,
      onAddClick, onEditClick, onBackFromAdd, onBackFromEdit] at hs h ⊢
  all_goals first
    | (obtain ⟨_, rfl⟩ := hs; simp)
    | (rcases hs with ⟨_, hs⟩; split at hs <;> subst hs <;> simp)

theorem reachable_flags (galleries : List Record) (s : IndexState)
    (h : Reachable galleries s) :
    ¬ (s.addingGallery = true ∧ s.editingGallery.isSome = true) := by
  induction h with
  | init => simp [initialState]
  | next a _ hs ih => exact step_flags _ _ a hs ih

/-- C7: in every reachable state at most one of `addingGallery` and
`editingGallery` is set; Add in the list view gives the add view, Edit on a
row of the page gives the edit view of that record, Back from either gives the
list view; and add-then-back or edit-then-back from a list state gives that
very state again, so the record list, the search term and the current page are
as before. -/
theorem viewMode_stateMachine :
    (∀ (galleries : List Record) (s : IndexState), Reachable galleries s →
      ¬ (s.addingGallery = true ∧ s.editingGallery.isSome = true)) ∧
    (∀ s : IndexState, view s = View.listing →
      step s Action.clickAdd = some (onAddClick s) ∧
      view (onAddClick s) = View.adding ∧
      step (onAddClick s) Action.clickBack = some s) ∧
    (∀ (s : IndexState) (r : Record), view s = View.listing → r ∈ s.paginatedData →
      step s (Action.clickEdit r) = some (onEditClick s r) ∧
      view (onEditClick s r) = View.editing r ∧
      step (onEditClick s r) Action.clickBack = some s) ∧
    (∀ (galleries : List Record) (s : IndexState), Reachable galleries s →
      view s ≠ View.listing →
      ∃ s1, step s Action.clickBack = some s1 ∧ view s1 = View.listing ∧
        s1.list = s.list ∧ s1.search = s.search ∧ s1.currentPage = s.currentPage) := by
  refine ⟨reachable_flags, ?_, ?_, ?_⟩
  · intro s hv
    obtain ⟨ha, he⟩ := (view_listing_iff s).1 hv
    rcases s with ⟨l, se, p, e, ad⟩
    simp only at ha he
    subst ha he
    simp [step, view, onAddClick, onBackFromAdd]
  · intro s r hv hr
    obtain ⟨ha, he⟩ := (view_listing_iff s).1 hv
    rcases s with ⟨l, se, p, e, ad⟩
    simp only at ha he
    subst ha he
    simp [step, view, onEditClick, onBackFromEdit, hr]
  · intro galleries s hr hv
    have hf := reachable_flags galleries s hr
    rcases s with ⟨l, se, p, _ | g, _ | _⟩ <;>
      simp [step, view, onBackFromAdd, onBackFromEdit] at hf hv ⊢

theorem viewMode_stateMachine_witness :
    (step (initialState [sampleRecord 1]) Action.clickAdd
        = some (onAddClick (initialState [sampleRecord 1])) ∧
      view (onAddClick (initialState [sampleRecord 1])) = View.adding ∧
      step (onAddClick (initialState [sampleRecord 1])) Action.clickBack
        = some (initialState [sampleRecord 1])) ∧
    (step (initialState [sampleRecord 1]) (Action.clickEdit (sampleRecord 1))
        = some (onEditClick (initialState [sampleRecord 1]) (sampleRecord 1)) ∧
      view (onEditClick (initialState [sampleRecord 1]) (sampleRecord 1))
        = View.editing (sampleRecord 1) ∧
      step (onEditClick (initialState [sampleRecord 1]) (sampleRecord 1)) Action.clickBack
        = some (initialState [sampleRecord 1])) ∧
    ¬ ((onAddClick (initialState [sampleRecord 1])).addingGallery = true ∧
        (onAddClick (initialState [sampleRecord 1])).editingGallery.isSome = true) :=
  ⟨viewMode_stateMachine.2.1 (initialState [sampleRecord 1]) (by decide),
   viewMode_stateMachine.2.2.1 (initialState [sampleRecord 1]) (sampleRecord 1)
     (by decide) (by decide),
   viewMode_stateMachine.1 [sampleRecord 1] (onAddClick (initialState [sampleRecord 1]))
     (Reachable.next Action.clickAdd Reachable.init (by decide))⟩

/-! ## The edit buffer -/

/-- C8, as stated, at a record whose `images` is absent: the buffer gets one
empty new slot, which is neither the (empty) image list turned into existing
slots nor of the same count. -/
theorem formInit_images_absent :
    (sampleRecord 1).images = none ∧
    (formInit (some (sampleRecord 1))).images = [ImageSlot.new none] ∧
    (formInit (some (sampleRecord 1))).images ≠
      (((sampleRecord 1).images).getD []).map ImageSlot.existing ∧
    (formInit (some (sampleRecord 1))).images.length ≠
      (((sampleRecord 1).images).getD []).length := by
  decide

/-- C8, amended: for a record with an image list (possibly empty) the initial
buffer has the record's title, description (the empty string when absent) and
status (0 stays 0), and one existing slot for each image, in order; for a
record whose image list is absent the slots are one empty new slot; in add
mode the buffer is title "", description "", status 1 and one empty new
slot.  Scenario: images "a.png", "b.png" give two existing slots with these
values in this order. -/
theorem formInit_spec :
    (∀ (id : Int) (title : String) (description : Option String) (imgs : List String)
        (status : Int),
      formInit (some { id := id, title := title, description := description,
                       images := some imgs, status := status }) =
        { title := title, description := description.getD "", status := status,
          images := imgs.map ImageSlot.existing } ∧
      (formInit (some { id := id, title := title, description := description,
                        images := some imgs, status := status })).images.length
        = imgs.length) ∧
    (∀ (id : Int) (title : String) (description : Option String) (status : Int),
      formInit (some { id := id, title := title, description := description,
                       images := none, status := status }) =
        { title := title, description := description.getD "", status := status,
          images := [ImageSlot.new none] }) ∧
    (∀ (id : Int) (title : String) (description : Option String)
        (images : Option (List String)),
      (formInit (some { id := id, title := title, description := description,
                        images := images, status := 0 })).status = 0) ∧
    formInit none =
      { title := "", description := "", status := 1, images := [ImageSlot.new none] } ∧
    (∀ (id : Int) (title : String) (description : Option String) (status : Int),
      (formInit (some { id := id, title := title, description := description,
                        images := some ["a.png", "b.png"], status := status })).images =
        [ImageSlot.existing "a.png", ImageSlot.existing "b.png"]) := by
  refine ⟨?_, ?_, ?_, rfl, ?_⟩
  · intro id title description imgs status
    constructor
    · cases description <;> rfl
    · simp [formInit]
  · intro id title description status
    cases description <;> rfl
  · intro id title description images
    rfl
  · intro id title description status
    rfl

theorem removeImage_enumFrom (l : List ImageSlot) :
    ∀ n i : Nat,
      ((l.enumFrom n).filter (fun p => decide (p.1 ≠ n + i))).map Prod.snd = l.eraseIdx i := by
  induction l with
  | nil => intro n i; rfl
  | cons x l ih =>
    intro n i
    cases i with
    | zero =>
      have hkeep : (l.enumFrom (n + 1)).filter (fun p => decide (p.1 ≠ n + 0))
          = l.enumFrom (n + 1) := by
        apply List.filter_eq_self.2
        intro p hp
        have := List.le_fst_of_mem_enumFrom hp
        simp only [decide_eq_true_eq]
        omega
      simp only [List.enumFrom_cons, List.eraseIdx_cons_zero]
      rw [List.filter_cons_of_neg (by simp), hkeep, List.enumFrom_map_snd]
    | succ i =>
      simp only [List.enumFrom_cons, List.eraseIdx_cons_succ]
      rw [List.filter_cons_of_pos (by simp), List.map_cons]
      have := ih (n + 1) i
      rw [show n + 1 + i = n + (i + 1) by omega] at this
      rw [this]

theorem removeImage_eq_eraseIdx (l : List ImageSlot) (i : Nat) :
    removeImage l i = l.eraseIdx i := by
  have := removeImage_enumFrom l 0 i
  simpa [removeImage, List.enum] using this

/-- C9: `addImage` appends one empty new slot; `removeImage(i)` for an index
below the length removes exactly the slot at position `i`, the others kept in
order, so the length drops by one, with no minimum (one slot becomes none);
and `addImage` then `removeImage(0)` on the fresh add-mode buffer leaves
exactly one empty new slot. -/
theorem imageSlots_add_remove :
    (∀ s : List ImageSlot, addImage s = s ++ [ImageSlot.new none]) ∧
    (∀ (s : List ImageSlot) (i : Nat), i < s.length →
      removeImage s i = s.take i ++ s.drop (i + 1) ∧
      (removeImage s i).length = s.length - 1) ∧
    (∀ x : ImageSlot, removeImage [x] 0 = []) ∧
    removeImage (addImage (formInit none).images) 0 = [ImageSlot.new none] := by
  refine ⟨fun _ => rfl, ?_, fun _ => rfl, rfl⟩
  intro s i hi
  rw [removeImage_eq_eraseIdx]
  exact ⟨List.eraseIdx_eq_take_drop_succ _ _, List.length_eraseIdx_of_lt hi⟩

theorem imageSlots_add_remove_witness :
    removeImage [ImageSlot.existing "a.png", ImageSlot.new none, ImageSlot.existing "b.png"] 1
      = [ImageSlot.existing "a.png", ImageSlot.existing "b.png"] ∧
    (removeImage
      [ImageSlot.existing "a.png", ImageSlot.new none, ImageSlot.existing "b.png"] 1).length
      = 2 :=
  imageSlots_add_remove.2.1
    [ImageSlot.existing "a.png", ImageSlot.new none, ImageSlot.existing "b.png"] 1 (by decide)

theorem existingImagesField_append (a b : List ImageSlot) :
    existingImagesField (a ++ b) = existingImagesField a ++ existingImagesField b := by
  simp [existingImagesField, List.filterMap_append]

/-- C10: `handleNewFileChange` at an index below the length keeps the length,
puts the new slot holding the file at that index and leaves every other slot
as it was; if the slot held the existing reference `x`, the `existing_images[]`
values lose exactly the entry of that slot, the entries of the other slots
staying in order, so `x` is no longer among them unless another slot carries
it too. -/
theorem handleNewFileChange_spec (s : List ImageSlot) (i : Nat) (f : File)
    (rest : List File) (hi : i < s.length) :
    (handleNewFileChange s (f :: rest) i).length = s.length ∧
    (handleNewFileChange s (f :: rest) i)[i]? = some (ImageSlot.new (some f)) ∧
    (∀ j : Nat, j ≠ i → (handleNewFileChange s (f :: rest) i)[j]? = s[j]?) ∧
    (∀ x : String, s[i]? = some (ImageSlot.existing x) →
      existingImagesField s =
        existingImagesField (s.take i) ++ x :: existingImagesField (s.drop (i + 1)) ∧
      existingImagesField (handleNewFileChange s (f :: rest) i) =
        existingImagesField (s.take i) ++ existingImagesField (s.drop (i + 1)) ∧
      (x ∉ existingImagesField (s.take i) → x ∉ existingImagesField (s.drop (i + 1)) →
        x ∉ existingImagesField (handleNewFileChange s (f :: rest) i))) := by
  have hset : handleNewFileChange s (f :: rest) i =
      s.take i ++ ImageSlot.new (some f) :: s.drop (i + 1) := by
    unfold handleNewFileChange
    rw [List.set_eq_take_append_cons_drop, if_pos hi]
    rfl
  refine ⟨by simp [handleNewFileChange], by simp [handleNewFileChange, hi], ?_, ?_⟩
  · intro j hj
    unfold handleNewFileChange
    exact List.getElem?_set_ne (Ne.symm hj)
  · intro x hx
    have hxi : s[i] = ImageSlot.existing x := by
      rw [List.getElem?_eq_getElem hi] at hx
      exact Option.some.inj hx
    have hs : s = s.take i ++ ImageSlot.existing x :: s.drop (i + 1) := by
      rw [← hxi, List.getElem_cons_drop, List.take_append_drop]
    have hnew : existingImagesField (handleNewFileChange s (f :: rest) i) =
        existingImagesField (s.take i) ++ existingImagesField (s.drop (i + 1)) := by
      rw [hset, existingImagesField_append]
      rfl
    refine ⟨?_, hnew, ?_⟩
    · conv_lhs => rw [hs]
      rw [existingImagesField_append]
      rfl
    · intro h1 h2
      rw [hnew]
      simp [h1, h2]

theorem handleNewFileChange_spec_witness :
    (handleNewFileChange [ImageSlot.existing "a.png", ImageSlot.existing "b.png"]
        [File.mk "c.png"] 0).length = 2 ∧
    existingImagesField
      (handleNewFileChange [ImageSlot.existing "a.png", ImageSlot.existing "b.png"]
        [File.mk "c.png"] 0) = ["b.png"] :=
  have h := handleNewFileChange_spec
    [ImageSlot.existing "a.png", ImageSlot.existing "b.png"] 0 (File.mk "c.png") []
    (by decide)
  ⟨h.1, (h.2.2.2 "a.png" (by decide)).2.1⟩

end GalleryForm
